import Mathlib

/-!
Verification of the process-lifecycle orchestrator in `src/main.go` of the
Golang-Rutgers-Student-Online-Community repository.

The program is a single straight-line `main` function: it initializes
settings, logger, mysql, redis, mongodb, snowflake and the validator in
order (registering `defer`red cleanups as each resource is acquired),
builds the router, starts an HTTP server on a separate goroutine, blocks
on a signal channel subscribed to SIGINT/SIGTERM, and on receipt performs
a graceful shutdown with a 5-second deadline.

We embed `main` as a pure function from an environment of external
outcomes (which init calls fail and with what error, what the listener
returns, which signals are delivered, whether `srv.Shutdown` errors) to
an ordered trace of observable events together with an exit status.

Go semantics made explicit in the embedding:
* `return` from `main` runs the deferred calls in LIFO order and the
  process exits with status 0;
* `log.Fatalf` and `zap.L().Fatal` call `os.Exit(1)`, which terminates
  the process immediately WITHOUT running deferred calls;
* the goroutine running `srv.ListenAndServe` calls `log.Fatalf` when the
  listener fails with an error other than `http.ErrServerClosed`; a bind
  failure surfaces immediately after the server is started, while the
  main goroutine is blocked on the signal channel, so the process exits
  then (we model the fatal exit of the goroutine as occurring at that
  point);
* `signal.Notify(quit, syscall.SIGINT, syscall.SIGTERM)` relays exactly
  those two signals into the channel, and `<-quit` blocks until one
  arrives; an exit status of `none` in the model means the program is
  blocked forever at that receive.
-/

namespace GoWebApp

/-- Operating-system signals relevant to the program (a sample large
enough to distinguish the subscribed set from the rest). -/
inductive Sig where
  | sigint
  | sigterm
  | sigkill
  | sighup
  | sigquit
  deriving DecidableEq, Repr

/-- Observable events of a run of `main`, in program order. -/
inductive Event where
  /-- Diagnostic written to standard output by `fmt.Printf`. -/
  | printf (msg : String)
  /-- Log record at debug severity, `zap.L().Debug(...)`. -/
  | logDebug (msg : String)
  /-- Log record at info severity, `zap.L().Info(...)`. -/
  | logInfo (msg : String)
  /-- Log record at fatal severity (`log.Fatalf(...)` or
  `zap.L().Fatal(...)`), followed by `os.Exit(1)`. -/
  | logFatal (msg : String)
  /-- Call of `routes.Setup(mode)`: the router/handler build step. -/
  | routesSetup (mode : String)
  /-- Call of `srv.ListenAndServe()` on the given address, from the
  server goroutine. -/
  | listenAndServe (addr : String)
  /-- Receive `<-quit` returned this signal. -/
  | signalReceived (s : Sig)
  /-- Call of `srv.Shutdown(ctx)` with a context carrying this timeout
  in seconds. -/
  | shutdownCall (timeoutSeconds : Nat)
  /-- Run of a deferred resource rollback (`zap.L().Sync`, `mysql.Close`,
  `redis.Close` or `mongodb.Close`). -/
  | rollback (name : String)
  /-- Run of the deferred `cancel()` of the shutdown context. -/
  | ctxCancel
  deriving DecidableEq, Repr

/-- External outcomes a run of `main` can encounter: the error (if any)
returned by each fallible init call, the configuration values `main`
reads, the error value `srv.ListenAndServe` returns (`""` models a nil
error, i.e. the listener serving until shut down), the signals delivered
to the process, and the error (if any) returned by `srv.Shutdown`. -/
structure Env where
  settingsErr : Option String
  loggerErr : Option String
  mysqlErr : Option String
  redisErr : Option String
  mongodbErr : Option String
  snowflakeErr : Option String
  validatorErr : Option String
  mode : String
  port : Nat
  listenResult : String
  signals : List Sig
  shutdownErr : Option String
  deriving DecidableEq, Repr

/-- The sentinel error `http.ErrServerClosed` that `ListenAndServe`
returns after an intentional `Shutdown`. -/
def errServerClosed : String := "http: Server closed"

/-- The signals subscribed by `signal.Notify(quit, syscall.SIGINT,
syscall.SIGTERM)` in `main`. -/
def notifySignals : List Sig := [.sigint, .sigterm]

/-- Buffer capacity of the `quit` channel: `make(chan os.Signal, 1)`. -/
def quitChanCapacity : Nat := 1

/-- The graceful-shutdown deadline of
`context.WithTimeout(context.Background(), 5*time.Second)`. -/
def shutdownTimeoutSeconds : Nat := 5

/-- The subsequence of delivered signals that `signal.Notify` relays into
the `quit` channel: exactly those in `notifySignals`. -/
def relayedSignals (env : Env) : List Sig :=
  env.signals.filter (fun s => decide (s ∈ notifySignals))

/-- Shallow embedding of `main` from `src/main.go`. Returns the ordered
event trace together with the exit status: `some c` means the process
exited with status `c`; `none` means it blocked forever at `<-quit`.
Each `return` branch appends the deferred calls registered so far, in
LIFO order, and exits 0; each `Fatal` branch exits 1 without them. -/
def main (env : Env) : List Event × Option Nat :=
  -- 1. settings.Init()
  match env.settingsErr with
  | some e => ([.printf ("Init settings failed, err:" ++ e ++ "\n")], some 0)
  | none =>
  -- 2. logger.Init(settings.Conf.LogConfig, settings.Conf.Mode)
  match env.loggerErr with
  | some e => ([.printf ("Init logger failed, err:" ++ e ++ "\n")], some 0)
  | none =>
  -- defer zap.L().Sync(); zap.L().Debug("logger init success")
  let df1 : List Event := [.rollback "zap.L().Sync"]
  let ev1 : List Event := [.logDebug "logger init success"]
  -- 3. mysql.Init(settings.Conf.MySQLConfig)
  match env.mysqlErr with
  | some e => (ev1 ++ [.printf ("Init mysql failed, err:" ++ e ++ "\n")] ++ df1, some 0)
  | none =>
  -- defer mysql.Close()
  let df2 : List Event := .rollback "mysql.Close" :: df1
  -- 4. redis.Init(settings.Conf.RedisConfig)
  match env.redisErr with
  | some e => (ev1 ++ [.printf ("Init redis failed, err:" ++ e ++ "\n")] ++ df2, some 0)
  | none =>
  -- defer redis.Close()
  let df3 : List Event := .rollback "redis.Close" :: df2
  -- 5. mongodb.Init(settings.Conf.MongodbConfig)
  match env.mongodbErr with
  | some e => (ev1 ++ [.printf ("Init mongodb failed, err:" ++ e ++ "\n")] ++ df3, some 0)
  | none =>
  -- defer mongodb.Close()
  let df4 : List Event := .rollback "mongodb.Close" :: df3
  -- 5. snowflake.Init(settings.Conf.StartTime, settings.Conf.MachineID)
  match env.snowflakeErr with
  | some e => (ev1 ++ [.printf ("Init snowflake failed, err:" ++ e ++ "\n")] ++ df4, some 0)
  | none =>
  -- controller.InitValidator("en")
  match env.validatorErr with
  | some e => (ev1 ++ [.printf ("init validator trans failed, err:" ++ e ++ "\n")] ++ df4, some 0)
  | none =>
  -- 6. r := routes.Setup(settings.Conf.Mode)
  -- 7. srv := &http.Server{Addr: fmt.Sprintf(":%d", settings.Conf.Port), Handler: r}
  --    go func() { if err := srv.ListenAndServe(); err != nil && err != http.ErrServerClosed { log.Fatalf("listen: %s\n", err) } }()
  let ev2 : List Event := ev1 ++
    [.routesSetup env.mode, .listenAndServe (":" ++ toString env.port)]
  if env.listenResult ≠ "" ∧ env.listenResult ≠ errServerClosed then
    -- the goroutine hits log.Fatalf: os.Exit(1), deferred calls skipped
    (ev2 ++ [.logFatal ("listen: " ++ env.listenResult ++ "\n")], some 1)
  else
    -- quit := make(chan os.Signal, 1); signal.Notify(quit, SIGINT, SIGTERM); <-quit
    match (relayedSignals env).head? with
    | none => (ev2, none)
    | some s =>
      -- zap.L().Info("Shutdown Server ...")
      -- ctx, cancel := context.WithTimeout(context.Background(), 5*time.Second)
      -- defer cancel()
      let ev3 : List Event := ev2 ++
        [.signalReceived s, .logInfo "Shutdown Server ...",
         .shutdownCall shutdownTimeoutSeconds]
      let df5 : List Event := .ctxCancel :: df4
      match env.shutdownErr with
      | some e =>
        -- zap.L().Fatal("Server Shutdown: ", zap.Error(err)): os.Exit(1), defers skipped
        (ev3 ++ [.logFatal ("Server Shutdown: " ++ e)], some 1)
      | none =>
        -- zap.L().Info("Server exiting"); return from main: defers run LIFO, exit 0
        (ev3 ++ [.logInfo "Server exiting"] ++ df5, some 0)

/-- The registered-rollback name carried by an event, if any. -/
def eventRollback : Event → Option String
  | .rollback n => some n
  | _ => none

/-- The ordered list of registered rollbacks that actually ran in a run. -/
def rollbackTrace (r : List Event × Option Nat) : List String :=
  r.1.filterMap eventRollback

/-- Index (0-based, in program order: settings, logger, mysql, redis,
mongodb, snowflake, validator) of the first init call that fails. -/
def firstFailIdx (env : Env) : Option Nat :=
  if env.settingsErr.isSome then some 0
  else if env.loggerErr.isSome then some 1
  else if env.mysqlErr.isSome then some 2
  else if env.redisErr.isSome then some 3
  else if env.mongodbErr.isSome then some 4
  else if env.snowflakeErr.isSome then some 5
  else if env.validatorErr.isSome then some 6
  else none

/-- The rollback registered by the init step at the given index, if that
step registers one (settings, snowflake and the validator register
none). -/
def stepRollbackName : Nat → Option String
  | 1 => some "zap.L().Sync"
  | 2 => some "mysql.Close"
  | 3 => some "redis.Close"
  | 4 => some "mongodb.Close"
  | _ => none

/-- The error outcome of the init step at the given index. -/
def errAt (env : Env) : Nat → Option String
  | 0 => env.settingsErr
  | 1 => env.loggerErr
  | 2 => env.mysqlErr
  | 3 => env.redisErr
  | 4 => env.mongodbErr
  | 5 => env.snowflakeErr
  | 6 => env.validatorErr
  | _ => none

/-- The diagnostic `main` prints when the init step at the given index
fails with the given cause (the `fmt.Printf` format strings of the
code). -/
def initFailMsg : Nat → String → String
  | 0, e => "Init settings failed, err:" ++ e ++ "\n"
  | 1, e => "Init logger failed, err:" ++ e ++ "\n"
  | 2, e => "Init mysql failed, err:" ++ e ++ "\n"
  | 3, e => "Init redis failed, err:" ++ e ++ "\n"
  | 4, e => "Init mongodb failed, err:" ++ e ++ "\n"
  | 5, e => "Init snowflake failed, err:" ++ e ++ "\n"
  | _, e => "init validator trans failed, err:" ++ e ++ "\n"

/-- Clean-path environment: every init succeeds, the listener serves
until shut down (then returns `http.ErrServerClosed`), one SIGTERM is
delivered, `srv.Shutdown` returns nil. -/
def envClean : Env :=
  { settingsErr := none, loggerErr := none, mysqlErr := none,
    redisErr := none, mongodbErr := none, snowflakeErr := none,
    validatorErr := none, mode := "release", port := 8081,
    listenResult := "http: Server closed", signals := [.sigterm],
    shutdownErr := none }

/-- Environment in which `redis.Init` is the first init call to fail. -/
def envRedisFail : Env :=
  { envClean with
    redisErr := some "conn refused",
    listenResult := "",
    signals := [] }

/-- Environment in which `settings.Init` fails. -/
def envSettingsFail : Env :=
  { envClean with settingsErr := some "open config file failed" }

/-- Environment in which `srv.Shutdown` misses its deadline and returns
the context error. -/
def envShutdownTimeout : Env :=
  { envClean with shutdownErr := some "context deadline exceeded" }

/-- Environment in which the listener cannot bind its address. -/
def envBindFail : Env :=
  { envClean with
    listenResult := "listen tcp :8081: bind: address already in use",
    signals := [] }

/-- Environment in which two subscribed signals are delivered. -/
def envTwoSignals : Env :=
  { envClean with signals := [.sigint, .sigterm] }

/-- Distinct init steps register distinct rollbacks. -/
theorem stepRollbackName_inj {i j : Nat} {r : String}
    (hi : stepRollbackName i = some r) (hj : stepRollbackName j = some r) :
    i = j := by
  rcases i with _ | _ | _ | _ | _ | i <;> rcases j with _ | _ | _ | _ | _ | j <;>
    simp_all [stepRollbackName] <;> subst hi <;> exact absurd hj (by decide)

/-- Membership in the reversed rollback list of the first `k` steps. -/
theorem mem_rollbackList {k : Nat} {r : String} :
    r ∈ ((List.range k).filterMap stepRollbackName).reverse ↔
      ∃ i, i < k ∧ stepRollbackName i = some r := by
  simp [List.mem_reverse, List.mem_filterMap, List.mem_range]

/-- When no init step fails, every init outcome is `none`. -/
theorem firstFailIdx_none {env : Env} (h : firstFailIdx env = none) :
    env.settingsErr = none ∧ env.loggerErr = none ∧ env.mysqlErr = none ∧
    env.redisErr = none ∧ env.mongodbErr = none ∧ env.snowflakeErr = none ∧
    env.validatorErr = none := by
  unfold firstFailIdx at h
  split_ifs at h <;> simp_all [Option.not_isSome_iff_eq_none]

/-- Master description of a run whose first init failure is at step `k`:
the rollbacks that ran are exactly those of steps before `k`, reversed;
the exit status is 0 (a plain `return` from `main`); the failing step
printed its diagnostic; and neither the router build nor the server
start was reached. -/
theorem main_initFail (env : Env) (k : Nat) (h : firstFailIdx env = some k) :
    rollbackTrace (main env) = ((List.range k).filterMap stepRollbackName).reverse ∧
    (main env).2 = some 0 ∧
    (∃ e, errAt env k = some e ∧ Event.printf (initFailMsg k e) ∈ (main env).1) ∧
    (∀ m, Event.routesSetup m ∉ (main env).1) ∧
    (∀ a, Event.listenAndServe a ∉ (main env).1) := by
  cases h0 : env.settingsErr with
  | some e =>
    simp [firstFailIdx, h0] at h
    subst h
    refine ⟨?_, ?_, ⟨e, ?_, ?_⟩, ?_, ?_⟩ <;>
      simp [main, h0, rollbackTrace, eventRollback, errAt, initFailMsg, stepRollbackName]
  | none =>
  cases h1 : env.loggerErr with
  | some e =>
    simp [firstFailIdx, h0, h1] at h
    subst h
    refine ⟨?_, ?_, ⟨e, ?_, ?_⟩, ?_, ?_⟩ <;>
      simp [main, h0, h1, rollbackTrace, eventRollback, errAt, initFailMsg, stepRollbackName]
  | none =>
  cases h2 : env.mysqlErr with
  | some e =>
    simp [firstFailIdx, h0, h1, h2] at h
    subst h
    refine ⟨?_, ?_, ⟨e, ?_, ?_⟩, ?_, ?_⟩ <;>
      simp [main, h0, h1, h2, rollbackTrace, eventRollback, errAt, initFailMsg,
        stepRollbackName, List.range_succ]
  | none =>
  cases h3 : env.redisErr with
  | some e =>
    simp [firstFailIdx, h0, h1, h2, h3] at h
    subst h
    refine ⟨?_, ?_, ⟨e, ?_, ?_⟩, ?_, ?_⟩ <;>
      simp [main, h0, h1, h2, h3, rollbackTrace, eventRollback, errAt, initFailMsg,
        stepRollbackName, List.range_succ]
  | none =>
  cases h4 : env.mongodbErr with
  | some e =>
    simp [firstFailIdx, h0, h1, h2, h3, h4] at h
    subst h
    refine ⟨?_, ?_, ⟨e, ?_, ?_⟩, ?_, ?_⟩ <;>
      simp [main, h0, h1, h2, h3, h4, rollbackTrace, eventRollback, errAt, initFailMsg,
        stepRollbackName, List.range_succ]
  | none =>
  cases h5 : env.snowflakeErr with
  | some e =>
    simp [firstFailIdx, h0, h1, h2, h3, h4, h5] at h
    subst h
    refine ⟨?_, ?_, ⟨e, ?_, ?_⟩, ?_, ?_⟩ <;>
      simp [main, h0, h1, h2, h3, h4, h5, rollbackTrace, eventRollback, errAt, initFailMsg,
        stepRollbackName, List.range_succ]
  | none =>
  cases h6 : env.validatorErr with
  | some e =>
    simp [firstFailIdx, h0, h1, h2, h3, h4, h5, h6] at h
    subst h
    refine ⟨?_, ?_, ⟨e, ?_, ?_⟩, ?_, ?_⟩ <;>
      simp [main, h0, h1, h2, h3, h4, h5, h6, rollbackTrace, eventRollback, errAt,
        initFailMsg, stepRollbackName, List.range_succ]
  | none =>
    simp [firstFailIdx, h0, h1, h2, h3, h4, h5, h6] at h

/-- The head of the relayed-signal list is a subscribed, delivered
signal. -/
theorem head?_relayed_mem {env : Env} {s : Sig}
    (h : (relayedSignals env).head? = some s) :
    s ∈ notifySignals ∧ s ∈ env.signals := by
  have hm : s ∈ relayedSignals env := by
    cases hrel : relayedSignals env with
    | nil => rw [hrel] at h; simp at h
    | cons a t =>
      rw [hrel] at h
      simp at h
      subst h
      exact List.mem_cons_self _ _
  unfold relayedSignals at hm
  rw [List.mem_filter] at hm
  exact ⟨of_decide_eq_true hm.2, hm.1⟩

/-- Any received signal in a trace of `main` is the head of the relayed
signal list. -/
theorem main_signalReceived_head (env : Env) (x : Sig)
    (hx : Event.signalReceived x ∈ (main env).1) :
    (relayedSignals env).head? = some x := by
  cases h0 : env.settingsErr with
  | some e => simp [main, h0] at hx
  | none =>
  cases h1 : env.loggerErr with
  | some e => simp [main, h0, h1] at hx
  | none =>
  cases h2 : env.mysqlErr with
  | some e => simp [main, h0, h1, h2] at hx
  | none =>
  cases h3 : env.redisErr with
  | some e => simp [main, h0, h1, h2, h3] at hx
  | none =>
  cases h4 : env.mongodbErr with
  | some e => simp [main, h0, h1, h2, h3, h4] at hx
  | none =>
  cases h5 : env.snowflakeErr with
  | some e => simp [main, h0, h1, h2, h3, h4, h5] at hx
  | none =>
  cases h6 : env.validatorErr with
  | some e => simp [main, h0, h1, h2, h3, h4, h5, h6] at hx
  | none =>
  by_cases hc : env.listenResult ≠ "" ∧ env.listenResult ≠ errServerClosed
  · simp [main, h0, h1, h2, h3, h4, h5, h6, hc] at hx
  · cases hrel : (relayedSignals env).head? with
    | none => simp [main, h0, h1, h2, h3, h4, h5, h6, hc, hrel] at hx
    | some s0 =>
      cases hsd : env.shutdownErr with
      | some e =>
        simp [main, h0, h1, h2, h3, h4, h5, h6, hc, hrel, hsd] at hx
        rw [hx]
      | none =>
        simp [main, h0, h1, h2, h3, h4, h5, h6, hc, hrel, hsd] at hx
        rw [hx]

/-- Two environments that agree on the head of the relayed-signal list
produce identical runs: `main` consumes the signal list only through
that head. -/
theorem main_signals_congr (env : Env) (l : List Sig)
    (h : (relayedSignals env).head? =
      (relayedSignals { env with signals := l }).head?) :
    main env = main { env with signals := l } := by
  obtain ⟨s0, s1, s2, s3, s4, s5, s6, mo, po, lr, sg, sd⟩ := env
  cases s0 with
  | some e => rfl
  | none =>
  cases s1 with
  | some e => rfl
  | none =>
  cases s2 with
  | some e => rfl
  | none =>
  cases s3 with
  | some e => rfl
  | none =>
  cases s4 with
  | some e => rfl
  | none =>
  cases s5 with
  | some e => rfl
  | none =>
  cases s6 with
  | some e => rfl
  | none =>
  simp only [main]
  by_cases hc : lr ≠ "" ∧ lr ≠ errServerClosed
  · rw [if_pos hc, if_pos hc]
  · rw [if_neg hc, if_neg hc, h]

/-- C1: in a run whose first failing init step is step `k`, exactly the
rollbacks registered by the steps before `k` run, in strict reverse
order of acquisition; no rollback of a step at or after `k` ever runs;
and a rollback runs if and only if the action of its step succeeded
(its step index is before `k`). -/
theorem init_failure_rollback_order (env : Env) (k : Nat)
    (h : firstFailIdx env = some k) :
    rollbackTrace (main env) = ((List.range k).filterMap stepRollbackName).reverse ∧
    (∀ i r, k ≤ i → stepRollbackName i = some r →
      r ∉ rollbackTrace (main env)) ∧
    (∀ i r, stepRollbackName i = some r →
      (r ∈ rollbackTrace (main env) ↔ i < k)) := by
  obtain ⟨h1, -, -, -, -⟩ := main_initFail env k h
  refine ⟨h1, ?_, ?_⟩
  · intro i r hk hr hmem
    rw [h1] at hmem
    obtain ⟨j, hj, hj2⟩ := mem_rollbackList.mp hmem
    have := stepRollbackName_inj hr hj2
    omega
  · intro i r hr
    rw [h1, mem_rollbackList]
    constructor
    · rintro ⟨j, hj, hj2⟩
      have := stepRollbackName_inj hr hj2
      omega
    · intro hik
      exact ⟨i, hik, hr⟩

/-- C1 witness: concrete run in which `redis.Init` (step 3) fails; the
rollback trace is `mysql.Close` then the logger flush. -/
theorem init_failure_rollback_order_witness :
    firstFailIdx envRedisFail = some 3 ∧
    (rollbackTrace (main envRedisFail) =
        ((List.range 3).filterMap stepRollbackName).reverse ∧
      (∀ i r, 3 ≤ i → stepRollbackName i = some r →
        r ∉ rollbackTrace (main envRedisFail)) ∧
      (∀ i r, stepRollbackName i = some r →
        (r ∈ rollbackTrace (main envRedisFail) ↔ i < 3))) :=
  ⟨rfl, init_failure_rollback_order envRedisFail 3 rfl⟩

/-- C2 counterexample: it is NOT the case that every run with all init
steps succeeding and `srv.Shutdown` returning an error still executes
the registered rollbacks; in `envShutdownTimeout` the rollback trace is
empty, because `zap.L().Fatal` calls `os.Exit(1)` and skips every
deferred call. -/
theorem shutdown_error_rollback_cex :
    ¬ (∀ env : Env, firstFailIdx env = none → env.shutdownErr.isSome = true →
        "mongodb.Close" ∈ rollbackTrace (main env) ∧
        "redis.Close" ∈ rollbackTrace (main env) ∧
        "mysql.Close" ∈ rollbackTrace (main env) ∧
        "zap.L().Sync" ∈ rollbackTrace (main env)) := by
  intro hcl
  have h := hcl envShutdownTimeout rfl rfl
  have hempty : rollbackTrace (main envShutdownTimeout) = [] := rfl
  rw [hempty] at h
  exact absurd h.1 (List.not_mem_nil _)

/-- C2 (amended): when `srv.Shutdown` returns an error (e.g. its
5-second deadline elapsed), the coordinator reports it at fatal severity
and the process exits with status 1, but NO registered rollback runs:
`zap.L().Fatal` exits via `os.Exit(1)`, which skips all deferred
calls. -/
theorem shutdown_error_behavior (env : Env) (s : Sig) (e : String)
    (hf : firstFailIdx env = none)
    (hl : env.listenResult = "" ∨ env.listenResult = errServerClosed)
    (hs : (relayedSignals env).head? = some s)
    (he : env.shutdownErr = some e) :
    Event.logFatal ("Server Shutdown: " ++ e) ∈ (main env).1 ∧
    (main env).2 = some 1 ∧
    rollbackTrace (main env) = [] := by
  obtain ⟨e0, e1, e2, e3, e4, e5, e6⟩ := firstFailIdx_none hf
  rcases hl with hl | hl <;>
    exact ⟨by simp [main, e0, e1, e2, e3, e4, e5, e6, hl, hs, he, errServerClosed],
      by simp [main, e0, e1, e2, e3, e4, e5, e6, hl, hs, he, errServerClosed],
      by simp [main, rollbackTrace, eventRollback, e0, e1, e2, e3, e4, e5, e6, hl,
        hs, he, errServerClosed]⟩

/-- C2 witness: concrete run in which `srv.Shutdown` returns the context
deadline error. -/
theorem shutdown_error_behavior_witness :
    firstFailIdx envShutdownTimeout = none ∧
    envShutdownTimeout.shutdownErr = some "context deadline exceeded" ∧
    (Event.logFatal ("Server Shutdown: " ++ "context deadline exceeded") ∈
        (main envShutdownTimeout).1 ∧
      (main envShutdownTimeout).2 = some 1 ∧
      rollbackTrace (main envShutdownTimeout) = []) :=
  ⟨rfl, rfl,
    shutdown_error_behavior envShutdownTimeout .sigterm "context deadline exceeded"
      rfl (Or.inr rfl) rfl rfl⟩

/-- C3 counterexample: it is NOT the case that every run with a failing
init step exits with a status other than 0; when `settings.Init` fails,
`main` returns and the process exits with status 0. -/
theorem init_failure_nonzero_exit_cex :
    ¬ (∀ env : Env, firstFailIdx env ≠ none → (main env).2 ≠ some 0) := by
  intro hcl
  exact hcl envSettingsFail (by decide) rfl

/-- C3 (amended): when the init step at index `k` fails with cause `e`,
the process emits the diagnostic naming the failing step and its cause
and terminates by a plain `return` from `main`: the exit status is 0,
not non-zero. -/
theorem init_failure_diagnostic_exit_zero (env : Env) (k : Nat) (e : String)
    (h : firstFailIdx env = some k) (he : errAt env k = some e) :
    Event.printf (initFailMsg k e) ∈ (main env).1 ∧ (main env).2 = some 0 := by
  obtain ⟨-, h2, ⟨e2, he2, hm⟩, -, -⟩ := main_initFail env k h
  rw [he] at he2
  injection he2 with hee
  rw [hee]
  exact ⟨hm, h2⟩

/-- C3 witness: concrete run in which `settings.Init` fails; the
diagnostic is printed and the exit status is 0. -/
theorem init_failure_diagnostic_exit_zero_witness :
    firstFailIdx envSettingsFail = some 0 ∧
    errAt envSettingsFail 0 = some "open config file failed" ∧
    (Event.printf (initFailMsg 0 "open config file failed") ∈
        (main envSettingsFail).1 ∧
      (main envSettingsFail).2 = some 0) :=
  ⟨rfl, rfl,
    init_failure_diagnostic_exit_zero envSettingsFail 0 "open config file failed"
      rfl rfl⟩

/-- C4: on the clean path (all init steps succeed, the listener serves
until shut down, one subscribed termination signal is delivered, and
`srv.Shutdown` returns without error) the server was started and the
process exits with status 0 having run the registered rollbacks exactly
once each, in reverse acquisition order: `mongodb.Close`, `redis.Close`,
`mysql.Close`, then the logger flush. -/
theorem clean_shutdown_path (env : Env) (s : Sig)
    (hf : firstFailIdx env = none)
    (hl : env.listenResult = "" ∨ env.listenResult = errServerClosed)
    (hs : env.signals = [s]) (hmem : s ∈ notifySignals)
    (hsd : env.shutdownErr = none) :
    Event.listenAndServe (":" ++ toString env.port) ∈ (main env).1 ∧
    (main env).2 = some 0 ∧
    rollbackTrace (main env) =
      ["mongodb.Close", "redis.Close", "mysql.Close", "zap.L().Sync"] := by
  obtain ⟨e0, e1, e2, e3, e4, e5, e6⟩ := firstFailIdx_none hf
  have hrel : (relayedSignals env).head? = some s := by
    simp [relayedSignals, hs, hmem]
  rcases hl with hl | hl <;>
    exact ⟨by simp [main, e0, e1, e2, e3, e4, e5, e6, hl, hrel, hsd, errServerClosed],
      by simp [main, e0, e1, e2, e3, e4, e5, e6, hl, hrel, hsd, errServerClosed],
      by simp [main, rollbackTrace, eventRollback, e0, e1, e2, e3, e4, e5, e6, hl,
        hrel, hsd, errServerClosed]⟩

/-- C4 witness: concrete clean run with a single SIGTERM. -/
theorem clean_shutdown_path_witness :
    firstFailIdx envClean = none ∧
    envClean.signals = [Sig.sigterm] ∧
    envClean.shutdownErr = none ∧
    (Event.listenAndServe (":" ++ toString envClean.port) ∈ (main envClean).1 ∧
      (main envClean).2 = some 0 ∧
      rollbackTrace (main envClean) =
        ["mongodb.Close", "redis.Close", "mysql.Close", "zap.L().Sync"]) :=
  ⟨rfl, rfl, rfl,
    clean_shutdown_path envClean .sigterm rfl (Or.inr rfl) rfl (by decide) rfl⟩

/-- C5: the router/handler build step `routes.Setup` appears in a trace
only when every init step succeeded, and in any run whose first init
failure is at some step, neither `routes.Setup` nor the server start
ever occurs. -/
theorem no_partial_service (env : Env) :
    (∀ m, Event.routesSetup m ∈ (main env).1 → firstFailIdx env = none) ∧
    (∀ k, firstFailIdx env = some k →
      (∀ m, Event.routesSetup m ∉ (main env).1) ∧
      (∀ a, Event.listenAndServe a ∉ (main env).1)) := by
  constructor
  · intro m hm
    cases hk : firstFailIdx env with
    | none => rfl
    | some k => exact absurd hm ((main_initFail env k hk).2.2.2.1 m)
  · intro k hk
    exact ⟨(main_initFail env k hk).2.2.2.1, (main_initFail env k hk).2.2.2.2⟩

/-- C5 witness: in the concrete run in which `redis.Init` fails, the
router is never built and the server never started. -/
theorem no_partial_service_witness :
    (∀ m, Event.routesSetup m ∈ (main envRedisFail).1 →
      firstFailIdx envRedisFail = none) ∧
    (∀ k, firstFailIdx envRedisFail = some k →
      (∀ m, Event.routesSetup m ∉ (main envRedisFail).1) ∧
      (∀ a, Event.listenAndServe a ∉ (main envRedisFail).1)) :=
  no_partial_service envRedisFail

/-- C6: when the listener fails with a non-nil error other than
`http.ErrServerClosed`, the process exits with status 1 after the fatal
`listen:` diagnostic, and the listen call appears exactly once in the
trace (it is never retried). -/
theorem listen_failure_aborts (env : Env)
    (hf : firstFailIdx env = none)
    (h1 : env.listenResult ≠ "") (h2 : env.listenResult ≠ errServerClosed) :
    (main env).2 = some 1 ∧
    Event.logFatal ("listen: " ++ env.listenResult ++ "\n") ∈ (main env).1 ∧
    (main env).1.count (Event.listenAndServe (":" ++ toString env.port)) = 1 := by
  obtain ⟨e0, e1, e2, e3, e4, e5, e6⟩ := firstFailIdx_none hf
  refine ⟨?_, ?_, ?_⟩ <;>
    simp [main, e0, e1, e2, e3, e4, e5, e6, h1, h2, List.count_cons]

/-- C6 witness: concrete run in which the bind address is already in
use. -/
theorem listen_failure_aborts_witness :
    firstFailIdx envBindFail = none ∧
    envBindFail.listenResult ≠ "" ∧
    envBindFail.listenResult ≠ errServerClosed ∧
    ((main envBindFail).2 = some 1 ∧
      Event.logFatal ("listen: " ++ envBindFail.listenResult ++ "\n") ∈
        (main envBindFail).1 ∧
      (main envBindFail).1.count
        (Event.listenAndServe (":" ++ toString envBindFail.port)) = 1) :=
  ⟨rfl, by decide, by decide,
    listen_failure_aborts envBindFail rfl (by decide) (by decide)⟩

/-- C7: the shutdown deadline is the fixed constant 5 seconds; once a
termination signal is received, the trace continues immediately with the
signal receipt, the shutdown log line and the `srv.Shutdown` call
carrying the 5-second timeout, and every shutdown call in any such trace
carries timeout 5. -/
theorem shutdown_deadline_five_seconds (env : Env) (s : Sig)
    (hf : firstFailIdx env = none)
    (hl : env.listenResult = "" ∨ env.listenResult = errServerClosed)
    (hs : (relayedSignals env).head? = some s) :
    shutdownTimeoutSeconds = 5 ∧
    (∃ pre post, (main env).1 =
      pre ++ Event.signalReceived s :: Event.logInfo "Shutdown Server ..." ::
        Event.shutdownCall 5 :: post) ∧
    (∀ t, Event.shutdownCall t ∈ (main env).1 → t = 5) := by
  obtain ⟨e0, e1, e2, e3, e4, e5, e6⟩ := firstFailIdx_none hf
  refine ⟨rfl, ?_, ?_⟩
  · refine ⟨[Event.logDebug "logger init success",
      Event.routesSetup env.mode, Event.listenAndServe (":" ++ toString env.port)], ?_⟩
    cases hsd : env.shutdownErr with
    | some e =>
      refine ⟨[Event.logFatal ("Server Shutdown: " ++ e)], ?_⟩
      rcases hl with hl | hl <;>
        simp [main, e0, e1, e2, e3, e4, e5, e6, hl, hs, hsd, errServerClosed,
          shutdownTimeoutSeconds]
    | none =>
      refine ⟨[Event.logInfo "Server exiting", Event.ctxCancel,
        Event.rollback "mongodb.Close", Event.rollback "redis.Close",
        Event.rollback "mysql.Close", Event.rollback "zap.L().Sync"], ?_⟩
      rcases hl with hl | hl <;>
        simp [main, e0, e1, e2, e3, e4, e5, e6, hl, hs, hsd, errServerClosed,
          shutdownTimeoutSeconds]
  · intro t ht
    cases hsd : env.shutdownErr <;> rcases hl with hl | hl <;>
      simp [main, e0, e1, e2, e3, e4, e5, e6, hl, hs, hsd, errServerClosed,
        shutdownTimeoutSeconds] at ht <;>
      exact ht

/-- C7 witness: the clean concrete run receives SIGTERM and calls
`srv.Shutdown` with the 5-second timeout. -/
theorem shutdown_deadline_five_seconds_witness :
    firstFailIdx envClean = none ∧
    (relayedSignals envClean).head? = some Sig.sigterm ∧
    (shutdownTimeoutSeconds = 5 ∧
      (∃ pre post, (main envClean).1 =
        pre ++ Event.signalReceived Sig.sigterm ::
          Event.logInfo "Shutdown Server ..." ::
          Event.shutdownCall 5 :: post) ∧
      (∀ t, Event.shutdownCall t ∈ (main envClean).1 → t = 5)) :=
  ⟨rfl, rfl, shutdown_deadline_five_seconds envClean .sigterm rfl (Or.inr rfl) rfl⟩

/-- C8: the subscribed signal set is exactly SIGINT and SIGTERM (in
particular SIGKILL is not subscribed); after a successful
initialization, if no delivered signal is subscribed the main path
blocks forever (no exit, no signal receipt, no shutdown call); any
received signal is both subscribed and delivered; and a relayed signal
does unblock the wait. -/
theorem signal_wait_set (env : Env)
    (hf : firstFailIdx env = none)
    (hl : env.listenResult = "" ∨ env.listenResult = errServerClosed) :
    notifySignals = [Sig.sigint, Sig.sigterm] ∧
    Sig.sigkill ∉ notifySignals ∧
    ((∀ s ∈ env.signals, s ∉ notifySignals) →
      (main env).2 = none ∧ (∀ s, Event.signalReceived s ∉ (main env).1) ∧
      (∀ t, Event.shutdownCall t ∉ (main env).1)) ∧
    (∀ s, Event.signalReceived s ∈ (main env).1 →
      s ∈ notifySignals ∧ s ∈ env.signals) ∧
    (∀ s, (relayedSignals env).head? = some s →
      (main env).2.isSome = true ∧ Event.signalReceived s ∈ (main env).1) := by
  obtain ⟨e0, e1, e2, e3, e4, e5, e6⟩ := firstFailIdx_none hf
  refine ⟨rfl, by decide, ?_, ?_, ?_⟩
  · intro hnone
    have hrel : (relayedSignals env).head? = none := by
      have hnil : relayedSignals env = [] := by
        unfold relayedSignals
        rw [List.filter_eq_nil_iff]
        intro a ha
        simpa using hnone a ha
      rw [hnil]
      rfl
    refine ⟨?_, ?_, ?_⟩ <;> rcases hl with hl | hl <;>
      simp [main, e0, e1, e2, e3, e4, e5, e6, hl, hrel, errServerClosed]
  · intro s hmem
    exact head?_relayed_mem (main_signalReceived_head env s hmem)
  · intro s hs
    constructor <;>
      cases hsd : env.shutdownErr <;> rcases hl with hl | hl <;>
        simp [main, e0, e1, e2, e3, e4, e5, e6, hl, hs, hsd, errServerClosed]

/-- C8 witness: the clean concrete run, whose delivered SIGTERM unblocks
the wait. -/
theorem signal_wait_set_witness :
    firstFailIdx envClean = none ∧
    (notifySignals = [Sig.sigint, Sig.sigterm] ∧
      Sig.sigkill ∉ notifySignals ∧
      ((∀ s ∈ envClean.signals, s ∉ notifySignals) →
        (main envClean).2 = none ∧
        (∀ s, Event.signalReceived s ∉ (main envClean).1) ∧
        (∀ t, Event.shutdownCall t ∉ (main envClean).1)) ∧
      (∀ s, Event.signalReceived s ∈ (main envClean).1 →
        s ∈ notifySignals ∧ s ∈ envClean.signals) ∧
      (∀ s, (relayedSignals envClean).head? = some s →
        (main envClean).2.isSome = true ∧
        Event.signalReceived s ∈ (main envClean).1)) :=
  ⟨rfl, signal_wait_set envClean rfl (Or.inr rfl)⟩

/-- C9: on a listener failure other than `http.ErrServerClosed` after a
fully successful initialization, the process exits with status 1 via the
fatal `listen:` log from the server goroutine, and NO registered
rollback runs — the mongodb, redis and mysql connections are not closed
and the logger is not flushed, because `os.Exit` skips deferred calls. -/
theorem listen_failure_skips_rollbacks (env : Env)
    (hf : firstFailIdx env = none)
    (h1 : env.listenResult ≠ "") (h2 : env.listenResult ≠ errServerClosed) :
    (main env).2 = some 1 ∧
    rollbackTrace (main env) = [] ∧
    Event.logFatal ("listen: " ++ env.listenResult ++ "\n") ∈ (main env).1 := by
  obtain ⟨e0, e1, e2, e3, e4, e5, e6⟩ := firstFailIdx_none hf
  refine ⟨?_, ?_, ?_⟩ <;>
    simp [main, rollbackTrace, eventRollback, e0, e1, e2, e3, e4, e5, e6, h1, h2]

/-- C9 witness: the concrete bind-failure run executes no rollback. -/
theorem listen_failure_skips_rollbacks_witness :
    firstFailIdx envBindFail = none ∧
    ((main envBindFail).2 = some 1 ∧
      rollbackTrace (main envBindFail) = [] ∧
      Event.logFatal ("listen: " ++ envBindFail.listenResult ++ "\n") ∈
        (main envBindFail).1) :=
  ⟨rfl, listen_failure_skips_rollbacks envBindFail rfl (by decide) (by decide)⟩

/-- C10: the `quit` channel has buffer capacity 1 and `main` reads
exactly one value from it: every received signal in the trace equals the
first relayed signal, and the entire run is unchanged when the delivered
signals are replaced by just that first relayed signal — later signals
have no effect on the shutdown already underway. -/
theorem signal_buffer_one_shot (env : Env) (s : Sig) (rest : List Sig)
    (h : relayedSignals env = s :: rest) :
    quitChanCapacity = 1 ∧
    (∀ x, Event.signalReceived x ∈ (main env).1 → x = s) ∧
    main env = main { env with signals := [s] } := by
  have hmem : s ∈ notifySignals := by
    have hm : s ∈ relayedSignals env := by
      rw [h]
      exact List.mem_cons_self _ _
    unfold relayedSignals at hm
    rw [List.mem_filter] at hm
    exact of_decide_eq_true hm.2
  refine ⟨rfl, ?_, main_signals_congr env [s] ?_⟩
  · intro x hx
    have hh := main_signalReceived_head env x hx
    rw [h] at hh
    simp at hh
    exact hh.symm
  · rw [h]
    show some s = (relayedSignals { env with signals := [s] }).head?
    simp [relayedSignals, hmem]

/-- C10 witness: with SIGINT followed by SIGTERM delivered, the run is
identical to the run in which only the SIGINT arrives. -/
theorem signal_buffer_one_shot_witness :
    relayedSignals envTwoSignals = Sig.sigint :: [Sig.sigterm] ∧
    (quitChanCapacity = 1 ∧
      (∀ x, Event.signalReceived x ∈ (main envTwoSignals).1 → x = Sig.sigint) ∧
      main envTwoSignals = main { envTwoSignals with signals := [Sig.sigint] }) :=
  ⟨rfl, signal_buffer_one_shot envTwoSignals .sigint [.sigterm] rfl⟩

end GoWebApp
